import Mathlib

/-!
# HASHnSIGN — verification of the manifest/sign/publish/verify pipeline

Shallow embedding of `src/main.cpp` (the HASHnSIGN prototype). The GUI layer
is excluded; external tools (md5sum, gpg, git, the directory iterator) are
modelled as oracles of type `String → CmdResult`, mirroring the spec's opaque
`CommandExecutor` (a command string in, an exit code and combined output out).
Filesystem facts that the code queries (`fs::exists`, the recursive file
listing) are passed in as explicit parameters.
-/

namespace HashNSign

/-- Result of `run_command_capture`: exit code and combined stdout+stderr. -/
structure CmdResult where
  exitCode : Int
  output : String
deriving DecidableEq, Repr

/-! ## String helpers mirroring the C++ std::string operations used -/

/-- Models C++ `s.rfind(p, 0) == 0`, i.e. `s` starts with `p`. -/
def startsWithStr (s p : String) : Bool :=
  p.data.isPrefixOf s.data

/-- Contiguous-sublist test on lists, used to model `std::string::find`. -/
def listContainsSeg (pat : List Char) : List Char → Bool
  | [] => pat.isPrefixOf []
  | c :: rest => pat.isPrefixOf (c :: rest) || listContainsSeg pat rest

/-- Models C++ `s.find(pat) != std::string::npos`: `pat` occurs in `s`. -/
def containsStr (s pat : String) : Bool :=
  listContainsSeg pat.data s.data

/-- C locale `isspace`, as used by `operator>>` on an `istringstream`. -/
def isSpaceC (c : Char) : Bool :=
  c = ' ' || c = '\t' || c = '\n' || c = '\x0b' || c = '\x0c' || c = '\r'

/-- Models `iss >> hash` on the md5sum output: skip leading whitespace, read
one whitespace-delimited token; `none` when extraction fails (no token). -/
def firstToken (s : String) : Option String :=
  match s.data.dropWhile isSpaceC with
  | [] => none
  | l => some ⟨l.takeWhile (fun c => !isSpaceC c)⟩

/-! ## ManifestGenerator: `generate_hashes_md5` -/

/-- One line of `hashes.md5`: the hash token extracted from md5sum's output
and the repository-relative path `srel` (written to the file as `./srel`). -/
structure ManifestEntry where
  hash : String
  srel : String
deriving DecidableEq, Repr

/-- The manifest line written for an entry: `<hash>  ./<srel>`. -/
def manifestLine (e : ManifestEntry) : String :=
  e.hash ++ "  " ++ ("./" ++ e.srel)

/-- The exclusion test of the generation loop (`src/main.cpp:64-65`):
skip paths starting with `.git` and the manifest/signature files. -/
def excluded (srel : String) : Bool :=
  startsWithStr srel ".git" || srel == "hashes.md5" || srel == "hashes.md5.asc"

/-- The per-file loop of `generate_hashes_md5` (`src/main.cpp:60-94`).
`files` is the repository's regular files in traversal order, as
root-relative paths; `md5` is the `md5sum "<file>"` oracle. Returns the
overall result and the manifest file's content (as entries, in order) at
the moment the function returns: the source streams each line to disk as
it is produced, so on an md5sum failure the file holds exactly the lines
already written. A zero-exit md5sum output with no token is skipped
(`if (!(iss >> hash)) continue`); the source's `fullpath` extraction from
the tool output is dead code (the written path is `./ + srel`) and has no
observable effect. -/
def genRun (md5 : String → CmdResult) : List String → Bool × List ManifestEntry
  | [] => (true, [])
  | srel :: rest =>
    if excluded srel then genRun md5 rest
    else if (md5 srel).exitCode ≠ 0 then (false, [])
    else
      match firstToken (md5 srel).output with
      | none => genRun md5 rest
      | some h => ((genRun md5 rest).1, ⟨h, srel⟩ :: (genRun md5 rest).2)

/-- `generate_hashes_md5` (`src/main.cpp:51-98`): `canOpen` is whether the
`ofstream` on `<repo>/hashes.md5` opened (`src/main.cpp:54`); on failure
nothing is written and `false` is returned. -/
def generate_hashes_md5 (canOpen : Bool) (md5 : String → CmdResult)
    (files : List String) : Bool × List ManifestEntry :=
  if canOpen then genRun md5 files else (false, [])

/-! ## SignatureManager: `sign_hashes` and `verify_signature`

Paths: `fs::path operator/` joins with the platform separator; the POSIX
form `<repo>/<name>` is used throughout. -/

/-- Outcome of a SignatureManager operation: the boolean the function
returns, whether the external tool was actually invoked (i.e. whether
control reached `run_command_capture`), and the log lines appended. -/
structure ToolOutcome where
  ok : Bool
  invoked : Bool
  log : List String
deriving DecidableEq, Repr

/-- The gpg command built by `sign_hashes` (`src/main.cpp:108-113`). -/
def sign_cmd (repo gpgKey : String) : String :=
  if gpgKey ≠ "" then
    "gpg --default-key " ++ gpgKey ++ " --armor --output \"" ++ repo ++
      "/hashes.md5.asc\" --sign \"" ++ repo ++ "/hashes.md5\""
  else
    "gpg --armor --output \"" ++ repo ++ "/hashes.md5.asc\" --sign \"" ++
      repo ++ "/hashes.md5\""

/-- `sign_hashes` (`src/main.cpp:101-122`). `hashesExists` is the queried
`fs::exists(repo / "hashes.md5")`; `run` is the CommandExecutor. -/
def sign_hashes (repo gpgKey : String) (hashesExists : Bool)
    (run : String → CmdResult) : ToolOutcome :=
  if !hashesExists then
    ⟨false, false, ["No existe " ++ repo ++ "/hashes.md5"]⟩
  else
    let r := run (sign_cmd repo gpgKey)
    if r.exitCode ≠ 0 then
      ⟨false, true, [r.output, "gpg sign failed (rc=" ++ toString r.exitCode ++ ")"]⟩
    else
      ⟨true, true, [r.output, "Firmado: " ++ repo ++ "/hashes.md5.asc"]⟩

/-- The gpg command built by `verify_signature` (`src/main.cpp:160-165`):
the two-file `gpg --verify <sig> <data>` form, in which gpg treats the
first file as a DETACHED signature over the second. -/
def verify_cmd (repo gpgKey : String) : String :=
  if gpgKey ≠ "" then
    "gpg --verify --keyid-format LONG \"" ++ repo ++ "/hashes.md5.asc\" \"" ++
      repo ++ "/hashes.md5\""
  else
    "gpg --verify \"" ++ repo ++ "/hashes.md5.asc\" \"" ++ repo ++ "/hashes.md5\""

/-- `verify_signature` (`src/main.cpp:153-177`). `ascExists` and
`hashesExists` are the two `fs::exists` queries of line 156. -/
def verify_signature (repo gpgKey : String) (ascExists hashesExists : Bool)
    (run : String → CmdResult) : ToolOutcome :=
  if !ascExists || !hashesExists then
    ⟨false, false, ["Faltan archivos de firma o hashes en " ++ repo]⟩
  else
    let r := run (verify_cmd repo gpgKey)
    if r.exitCode ≠ 0 then
      ⟨false, true, [r.output, "gpg verify returned rc=" ++ toString r.exitCode]⟩
    else
      let good := containsStr r.output "Good signature"
      ⟨good, true,
        [r.output,
         if good then "Firma válida en " ++ repo
         else "Firma NO válida o no verificable en " ++ repo]⟩

/-- Minimal model of the gpg CLI's signing mode: gpg emits a detached
signature only when invoked with `--detach-sign` (or its short form `-b`);
plain `--sign` wraps the signed data inside the output artifact. -/
def gpgCmdIsDetachedSign (cmd : String) : Bool :=
  containsStr cmd "--detach-sign" || containsStr cmd " -b "

/-! ## IntegrityVerifier: `verify_md5sum` -/

/-- `verify_md5sum` (`src/main.cpp:179-195`). -/
def verify_md5sum (repo : String) (hashesExists : Bool)
    (run : String → CmdResult) : ToolOutcome :=
  if !hashesExists then
    ⟨false, false, ["No existe " ++ repo ++ "/hashes.md5"]⟩
  else
    let r := run ("cd \"" ++ repo ++ "\" && md5sum -c hashes.md5")
    if r.exitCode = 0 then
      ⟨true, true, [r.output, "Integridad OK en " ++ repo]⟩
    else
      ⟨false, true,
        [r.output, "Integridad FALLIDA (rc=" ++ toString r.exitCode ++ ") en " ++ repo]⟩

/-! ## VersionControlPublisher: `git_add_commit_push` -/

/-- Wraps a git subcommand the way the source does (`src/main.cpp:127,138`). -/
def git_cmd (repo c : String) : String :=
  "cd \"" ++ repo ++ "\" && " ++ c

def gitAddCmd (repo : String) : String :=
  git_cmd repo "git add hashes.md5 hashes.md5.asc"

def gitStatusCmd (repo : String) : String :=
  git_cmd repo "git status --porcelain"

def gitCommitCmd (repo : String) : String :=
  git_cmd repo "git commit -m \"añadiendo fichero de hashes firmado\""

def gitPushCmd (repo : String) : String :=
  git_cmd repo "git push"

/-- Outcome of `git_add_commit_push`: result boolean, the full command
strings handed to `run_command_capture` in order, and the log lines. -/
structure GitOutcome where
  ok : Bool
  cmds : List String
  log : List String
deriving DecidableEq, Repr

/-- `git_add_commit_push` (`src/main.cpp:125-151`): stage the two files,
query `git status --porcelain`; an empty status is a "nothing to commit"
success; otherwise commit and push. Any non-zero exit aborts. -/
def git_add_commit_push (repo : String) (run : String → CmdResult) : GitOutcome :=
  let rAdd := run (gitAddCmd repo)
  if rAdd.exitCode ≠ 0 then
    ⟨false, [gitAddCmd repo],
      [rAdd.output, "Comando git fallo: git add hashes.md5 hashes.md5.asc"]⟩
  else
    let rSt := run (gitStatusCmd repo)
    if rSt.exitCode ≠ 0 then
      ⟨false, [gitAddCmd repo, gitStatusCmd repo], [rAdd.output, rSt.output]⟩
    else if rSt.output = "" then
      ⟨true, [gitAddCmd repo, gitStatusCmd repo],
        [rAdd.output, "No hay cambios para commitear en " ++ repo]⟩
    else
      let rC := run (gitCommitCmd repo)
      if rC.exitCode ≠ 0 then
        ⟨false, [gitAddCmd repo, gitStatusCmd repo, gitCommitCmd repo],
          [rAdd.output, rC.output,
           "Comando git fallo: git commit -m \"añadiendo fichero de hashes firmado\""]⟩
      else
        let rP := run (gitPushCmd repo)
        if rP.exitCode ≠ 0 then
          ⟨false, [gitAddCmd repo, gitStatusCmd repo, gitCommitCmd repo, gitPushCmd repo],
            [rAdd.output, rC.output, rP.output, "Comando git fallo: git push"]⟩
        else
          ⟨true, [gitAddCmd repo, gitStatusCmd repo, gitCommitCmd repo, gitPushCmd repo],
            [rAdd.output, rC.output, rP.output, "Push OK para " ++ repo]⟩

/-! ## RepositoryScanner: the detection block in `main`

`src/main.cpp:263-273`: `repos.clear()` then, inside a `try`, every entry of
`fs::directory_iterator(root)` that is a directory and contains a `.git`
subdirectory is pushed; the `catch` handler's body is the comment
`// ignore`, so a failed listing leaves the repository list empty and emits
nothing. `listing = none` models a throwing iterator (root missing or
unlistable); `some entries` models a successful listing of the immediate
entries of the root. -/

/-- One entry of `fs::directory_iterator(root)`: its path, whether it is a
directory, and whether `<entry>/.git` exists. -/
structure DirEntry where
  name : String
  isDir : Bool
  hasGitMarker : Bool
deriving DecidableEq, Repr

/-- The repository-detection block (`src/main.cpp:263-273`). Returns the
detected repository paths and the diagnostic messages emitted for a
listing failure (the `catch` block emits none). -/
def detectRepos (listing : Option (List DirEntry)) : List String × List String :=
  match listing with
  | none => ([], [])
  | some entries =>
    ((entries.filter (fun d => d.isDir && d.hasGitMarker)).map (fun d => d.name), [])

/-! ## Orchestrator: the two button handlers in `main` -/

/-- The per-repository inputs consumed by one pipeline pass: the repo path,
whether `<repo>/hashes.md5` could be opened for writing, the repository's
regular files in traversal order, and the two oracles (md5sum; gpg/git). -/
structure RepoEnv where
  path : String
  canOpenManifest : Bool
  files : List String
  md5 : String → CmdResult
  run : String → CmdResult

/-- The three pipeline stages of Publish-All, in source order. -/
inductive Stage where
  | generate
  | sign
  | publish
deriving DecidableEq, Repr

/-- The body of the Publish-All loop for one repository
(`src/main.cpp:285-302`): Generate, then Sign, then Publish, each guarded
by the previous stage's boolean; a failing stage `continue`s to the next
repository. Returns the stages that were entered, in execution order, and
the log text appended for this repository. `sign_hashes` is called with
`hashesExists = true`: it runs only after `generate_hashes_md5` returned
`true`, which created `<repo>/hashes.md5`. -/
def publishOne (gpgKey : String) (e : RepoEnv) : List Stage × List String :=
  let g := generate_hashes_md5 e.canOpenManifest e.md5 e.files
  if !g.1 then
    ([Stage.generate], ["ERROR generando hashes en " ++ e.path])
  else
    let s := sign_hashes e.path gpgKey true e.run
    if !s.ok then
      ([Stage.generate, Stage.sign], ["ERROR firmando en " ++ e.path] ++ s.log)
    else
      let gi := git_add_commit_push e.path e.run
      if !gi.ok then
        ([Stage.generate, Stage.sign, Stage.publish],
          ["ERROR git en " ++ e.path] ++ gi.log)
      else
        ([Stage.generate, Stage.sign, Stage.publish], s.log ++ gi.log)

/-- The Publish-All loop (`src/main.cpp:283-304`): the repositories are
processed sequentially; each contributes its path, the stages it entered
and its log segment. -/
def publishAll (gpgKey : String) : List RepoEnv → List (String × List Stage × List String)
  | [] => []
  | e :: rest => (e.path, publishOne gpgKey e) :: publishAll gpgKey rest

/-- The per-repository inputs of one Verify-All pass. -/
structure VerifyEnv where
  path : String
  ascExists : Bool
  hashesExists : Bool
  run : String → CmdResult

/-- Result of Verify-All for one repository: the two booleans and the log
segment appended for it (ending in the combined `Resultado:` line). -/
structure VerifyRepoResult where
  sigOk : Bool
  mdOk : Bool
  log : List String
deriving DecidableEq, Repr

/-- The combined status line logged per repository (`src/main.cpp:316`). -/
def resultLine (sigOk mdOk : Bool) : String :=
  "Resultado: firma=" ++ (if sigOk then "OK" else "FAIL") ++
    ", md5=" ++ (if mdOk then "OK" else "FAIL")

/-- The body of the Verify-All loop for one repository
(`src/main.cpp:308-317`): signature verification, then — unconditionally —
integrity verification, then the combined status line. -/
def verifyOne (gpgKey : String) (e : VerifyEnv) : VerifyRepoResult :=
  let s := verify_signature e.path gpgKey e.ascExists e.hashesExists e.run
  let m := verify_md5sum e.path e.hashesExists e.run
  ⟨s.ok, m.ok,
    ("Verificando: " ++ e.path) :: s.log ++ m.log ++ [resultLine s.ok m.ok]⟩

/-- The Verify-All loop (`src/main.cpp:306-319`). -/
def verifyAll (gpgKey : String) : List VerifyEnv → List (String × VerifyRepoResult)
  | [] => []
  | e :: rest => (e.path, verifyOne gpgKey e) :: verifyAll gpgKey rest

/-! ## Demonstration oracles for concrete evaluations -/

/-- A demonstration md5sum oracle: fails on `bad.bin`, succeeds elsewhere. -/
def md5Demo : String → CmdResult := fun s =>
  if s == "bad.bin" then ⟨1, "md5sum: bad.bin: Input/output error\n"⟩
  else ⟨0, "0123abcd  /repo/file\n"⟩

/-- A demonstration CommandExecutor whose gpg and git invocations succeed. -/
def runDemo : String → CmdResult := fun _ =>
  ⟨0, "gpg: Good signature from \"Demo\"\n"⟩

/-- A demonstration CommandExecutor whose invocations all fail. -/
def runFail : String → CmdResult := fun _ =>
  ⟨2, "gpg: signing failed: No secret key\n"⟩

/-- A demonstration executor for the second, change-free Publish run: the
status query reports a clean tree, everything else succeeds. -/
def runCleanTree : String → CmdResult := fun c =>
  if c == gitStatusCmd "/repo" then ⟨0, ""⟩ else ⟨0, "ok\n"⟩

/-! ## Generation lemmas -/

/-- Every entry the generation loop emits passed the exclusion test. -/
theorem excluded_of_mem_genRun (md5 : String → CmdResult) :
    ∀ (fs : List String) (e : ManifestEntry),
      e ∈ (genRun md5 fs).2 → excluded e.srel = false := by
  intro fs
  induction fs with
  | nil =>
    intro e he
    simp [genRun] at he
  | cons srel rest ih =>
    intro e he
    cases hex : excluded srel with
    | true =>
      simp only [genRun, hex, if_true] at he
      exact ih e he
    | false =>
      by_cases h0 : (md5 srel).exitCode = 0
      · cases hft : firstToken (md5 srel).output with
        | none =>
          simp only [genRun, hex, h0, hft, Bool.false_eq_true, if_false,
            ne_eq, not_true_eq_false] at he
          exact ih e he
        | some h =>
          simp only [genRun, hex, h0, hft, Bool.false_eq_true, if_false,
            ne_eq, not_true_eq_false, List.mem_cons] at he
          rcases he with h1 | h2
          · rw [h1]
            exact hex
          · exact ih e h2
      · simp [genRun, hex, h0] at he

/-- If every non-excluded file of `fs` hashes with exit code 0, the
generation loop over `fs` succeeds. -/
theorem genRun_fst_true (md5 : String → CmdResult) :
    ∀ (fs : List String),
      (∀ g ∈ fs, excluded g = false → (md5 g).exitCode = 0) →
      (genRun md5 fs).1 = true := by
  intro fs
  induction fs with
  | nil =>
    intro _
    simp [genRun]
  | cons srel rest ih =>
    intro hok
    have hrest : ∀ g ∈ rest, excluded g = false → (md5 g).exitCode = 0 :=
      fun g hg => hok g (List.mem_cons_of_mem _ hg)
    cases hex : excluded srel with
    | true =>
      simp only [genRun, hex, if_true]
      exact ih hrest
    | false =>
      have h0 : (md5 srel).exitCode = 0 := hok srel (List.mem_cons_self _ _) hex
      cases hft : firstToken (md5 srel).output with
      | none =>
        simp only [genRun, hex, h0, hft, Bool.false_eq_true, if_false,
          ne_eq, not_true_eq_false]
        exact ih hrest
      | some h =>
        simp only [genRun, hex, h0, hft, Bool.false_eq_true, if_false,
          ne_eq, not_true_eq_false]
        exact ih hrest

/-- Hitting the first failing non-excluded file aborts the loop with `false`
and leaves exactly the entries of the preceding prefix. -/
theorem genRun_append_fail (md5 : String → CmdResult) (f : String)
    (post : List String) (hf : excluded f = false)
    (hrc : (md5 f).exitCode ≠ 0) :
    ∀ (pre : List String),
      (∀ g ∈ pre, excluded g = false → (md5 g).exitCode = 0) →
      genRun md5 (pre ++ f :: post) = (false, (genRun md5 pre).2) := by
  intro pre
  induction pre with
  | nil =>
    intro _
    simp [genRun, hf, hrc]
  | cons g pre' ih =>
    intro hok
    have hpre' : ∀ x ∈ pre', excluded x = false → (md5 x).exitCode = 0 :=
      fun x hx => hok x (List.mem_cons_of_mem _ hx)
    have ihx := ih hpre'
    cases hex : excluded g with
    | true =>
      simp only [List.cons_append, genRun, hex, if_true]
      exact ihx
    | false =>
      have h0 : (md5 g).exitCode = 0 := hok g (List.mem_cons_self _ _) hex
      cases hft : firstToken (md5 g).output with
      | none =>
        simp only [List.cons_append, genRun, hex, h0, hft, Bool.false_eq_true,
          if_false, ne_eq, not_true_eq_false]
        exact ihx
      | some h =>
        simp only [List.cons_append, genRun, hex, h0, hft, Bool.false_eq_true,
          if_false, ne_eq, not_true_eq_false, List.append_eq]
        rw [ihx]

/-! ## Claim theorems: manifest generation -/

/-- C1: every entry of any generated manifest has a relative path that does
not begin with the version-control marker name `.git` and is neither the
manifest file `hashes.md5` nor the signature file `hashes.md5.asc`. -/
theorem manifest_excludes_marker_and_self (canOpen : Bool)
    (md5 : String → CmdResult) (files : List String) :
    ((generate_hashes_md5 canOpen md5 files).2).all
      (fun e => !startsWithStr e.srel ".git" &&
        !(e.srel == "hashes.md5") && !(e.srel == "hashes.md5.asc")) = true := by
  cases canOpen with
  | false => simp [generate_hashes_md5]
  | true =>
    simp only [generate_hashes_md5, if_true]
    rw [List.all_eq_true]
    intro e he
    have hx := excluded_of_mem_genRun md5 files e he
    simp only [excluded, Bool.or_eq_false_iff] at hx
    simp [hx.1.1, hx.1.2, hx.2]

/-- C9: exclusion is by string prefix on the relative path: no string
beginning with the characters `.git` — a top-level `.gitignore` included —
ever appears among the relative paths of a generated manifest. -/
theorem dotgit_prefix_paths_omitted (canOpen : Bool) (md5 : String → CmdResult)
    (files : List String) (s : String) (hs : startsWithStr s ".git" = true) :
    ((generate_hashes_md5 canOpen md5 files).2.map (fun e => e.srel)).contains s
      = false := by
  cases canOpen with
  | false => simp [generate_hashes_md5]
  | true =>
    simp only [generate_hashes_md5, if_true]
    rw [Bool.eq_false_iff]
    intro hcon
    rcases List.contains_iff_exists_mem_beq.mp hcon with ⟨s', hs', hbeq⟩
    rcases List.mem_map.mp hs' with ⟨e, he, hsrel⟩
    have hx := excluded_of_mem_genRun md5 files e he
    have hse : e.srel = s := by
      have : s = s' := by simpa using hbeq
      rw [this, ← hsrel]
    rw [hse] at hx
    simp only [excluded, Bool.or_eq_false_iff] at hx
    rw [hs] at hx
    exact Bool.noConfusion hx.1.1

/-- Witness for C9: with the demonstration oracle, `.gitignore` is absent
from the manifest generated over `[".gitignore", "a.txt"]`. -/
theorem dotgit_prefix_paths_omitted_witness :
    ((generate_hashes_md5 true md5Demo [".gitignore", "a.txt"]).2.map
      (fun e => e.srel)).contains ".gitignore" = false :=
  dotgit_prefix_paths_omitted true md5Demo [".gitignore", "a.txt"] ".gitignore"
    (by decide)

/-- C3: if the hashing tool fails (non-zero exit) on a non-excluded file and
succeeded on every non-excluded file before it, generation returns failure
and the manifest on disk holds exactly the entries of the preceding prefix
— a prefix whose own generation run succeeds. -/
theorem hash_failure_keeps_written_entries (md5 : String → CmdResult)
    (pre : List String) (f : String) (post : List String)
    (hf : excluded f = false) (hrc : (md5 f).exitCode ≠ 0)
    (hpre : ∀ g ∈ pre, excluded g = false → (md5 g).exitCode = 0) :
    generate_hashes_md5 true md5 (pre ++ f :: post) =
      (false, (generate_hashes_md5 true md5 pre).2) ∧
    (generate_hashes_md5 true md5 pre).1 = true := by
  simp only [generate_hashes_md5, if_true]
  exact ⟨genRun_append_fail md5 f post hf hrc pre hpre, genRun_fst_true md5 pre hpre⟩

/-- Witness for C3: the oracle fails on `bad.bin`; generation over
`["a.txt", ".gitignore", "bad.bin", "z.txt"]` returns failure with the
entries of the prefix `["a.txt", ".gitignore"]`. -/
theorem hash_failure_keeps_written_entries_witness :
    generate_hashes_md5 true md5Demo ["a.txt", ".gitignore", "bad.bin", "z.txt"] =
      (false, (generate_hashes_md5 true md5Demo ["a.txt", ".gitignore"]).2) ∧
    (generate_hashes_md5 true md5Demo ["a.txt", ".gitignore"]).1 = true :=
  hash_failure_keeps_written_entries md5Demo ["a.txt", ".gitignore"] "bad.bin"
    ["z.txt"] (by decide) (by decide) (by decide)

/-! ## Claim theorems: SignatureManager -/

/-- C4: with both files present, signature verification reports Valid
exactly when the tool exits 0 and its output contains the affirmative
`Good signature` indicator; a non-zero status or an absent indicator is
classified Invalid/Unverifiable. -/
theorem signature_classification (repo gpgKey : String) (run : String → CmdResult) :
    (verify_signature repo gpgKey true true run).ok = true ↔
      ((run (verify_cmd repo gpgKey)).exitCode = 0 ∧
        containsStr (run (verify_cmd repo gpgKey)).output "Good signature" = true) := by
  by_cases h0 : (run (verify_cmd repo gpgKey)).exitCode = 0
  · simp [verify_signature, h0]
  · simp [verify_signature, h0]

/-- C10: if the signature file or the manifest file is missing, signature
verification fails without ever invoking the external tool. -/
theorem verify_missing_files_short_circuit (repo gpgKey : String)
    (ascExists hashesExists : Bool) (run : String → CmdResult)
    (h : ascExists = false ∨ hashesExists = false) :
    (verify_signature repo gpgKey ascExists hashesExists run).ok = false ∧
    (verify_signature repo gpgKey ascExists hashesExists run).invoked = false := by
  rcases h with h | h <;> subst h <;> simp [verify_signature]

/-- Witness for C10: missing signature file, existing manifest. -/
theorem verify_missing_files_short_circuit_witness :
    (verify_signature "/repo" "" false true runDemo).ok = false ∧
    (verify_signature "/repo" "" false true runDemo).invoked = false :=
  verify_missing_files_short_circuit "/repo" "" false true runDemo (Or.inl rfl)

/-- C5 (code bug, evaluated): the signing command built by `sign_hashes`
uses gpg's embedding `--sign` mode — never `--detach-sign`/`-b` — for both
the keyed and the default-identity invocation, so the `hashes.md5.asc` it
produces is an armored signed message, not the detached signature the
specification describes; meanwhile `verify_cmd` is the two-file
`gpg --verify <sig> <data>` form that presupposes a detached signature.
The remaining conjuncts record the parts of the claim the code does
satisfy: armored output stored alongside the manifest, default identity
when no key is given, and failure on a missing manifest or non-zero exit. -/
theorem sign_not_detached_eval :
    gpgCmdIsDetachedSign (sign_cmd "/repo" "") = false ∧
    gpgCmdIsDetachedSign (sign_cmd "/repo" "ABCD1234") = false ∧
    containsStr (sign_cmd "/repo" "") "--sign" = true ∧
    containsStr (sign_cmd "/repo" "") "--armor" = true ∧
    containsStr (sign_cmd "/repo" "") "/repo/hashes.md5.asc" = true ∧
    containsStr (sign_cmd "/repo" "ABCD1234") "--default-key ABCD1234" = true ∧
    containsStr (sign_cmd "/repo" "") "--default-key" = false ∧
    verify_cmd "/repo" "" =
      "gpg --verify \"/repo/hashes.md5.asc\" \"/repo/hashes.md5\"" ∧
    (sign_hashes "/repo" "" false runDemo).ok = false ∧
    (sign_hashes "/repo" "" false runDemo).invoked = false ∧
    (sign_hashes "/repo" "" true runFail).ok = false ∧
    (sign_hashes "/repo" "" true runDemo).ok = true := by
  decide

/-! ## Claim theorems: VersionControlPublisher -/

/-- C7: when staging succeeds and the working-tree status query exits 0
with empty output, publishing reports success, logs the "nothing to
commit" outcome, and hands exactly the add and status commands to the
executor — no commit and no push command is ever issued. -/
theorem nothing_to_commit_success (repo : String) (run : String → CmdResult)
    (hAdd : (run (gitAddCmd repo)).exitCode = 0)
    (hStRc : (run (gitStatusCmd repo)).exitCode = 0)
    (hStOut : (run (gitStatusCmd repo)).output = "") :
    (git_add_commit_push repo run).ok = true ∧
    (git_add_commit_push repo run).cmds = [gitAddCmd repo, gitStatusCmd repo] ∧
    ("No hay cambios para commitear en " ++ repo) ∈ (git_add_commit_push repo run).log := by
  simp [git_add_commit_push, hAdd, hStRc, hStOut]

/-- Witness for C7: on a clean tree the publisher succeeds having issued
only the add and status commands. -/
theorem nothing_to_commit_success_witness :
    (git_add_commit_push "/repo" runCleanTree).ok = true ∧
    (git_add_commit_push "/repo" runCleanTree).cmds =
      [gitAddCmd "/repo", gitStatusCmd "/repo"] ∧
    ("No hay cambios para commitear en " ++ "/repo") ∈
      (git_add_commit_push "/repo" runCleanTree).log :=
  nothing_to_commit_success "/repo" runCleanTree (by decide) (by decide) (by decide)

/-! ## Claim theorems: Orchestrator -/

/-- The Publish-All loop is the pointwise image of its body. -/
theorem publishAll_eq_map (gpgKey : String) (envs : List RepoEnv) :
    publishAll gpgKey envs = envs.map (fun e => (e.path, publishOne gpgKey e)) := by
  induction envs with
  | nil => rfl
  | cons e rest ih => simp [publishAll, ih]

/-- C2: in Publish-All every repository's stage trace is a non-empty prefix
of Generate, Sign, Publish in that order; Sign is entered exactly when
Generate succeeded and Publish exactly when Generate and Sign both
succeeded — so a failing stage skips the rest for that repository — and
the whole run is the independent concatenation of per-repository passes,
so the repositories around a failing one still run their full pipeline. -/
theorem publish_order_gating_isolation (gpgKey : String) (envs : List RepoEnv) :
    (∀ (pre post : List RepoEnv) (e : RepoEnv),
      publishAll gpgKey (pre ++ e :: post) =
        publishAll gpgKey pre ++ (e.path, publishOne gpgKey e) ::
          publishAll gpgKey post) ∧
    publishAll gpgKey envs = envs.map (fun e => (e.path, publishOne gpgKey e)) ∧
    ∀ e : RepoEnv,
      ((publishOne gpgKey e).1 = [Stage.generate] ∨
       (publishOne gpgKey e).1 = [Stage.generate, Stage.sign] ∨
       (publishOne gpgKey e).1 = [Stage.generate, Stage.sign, Stage.publish]) ∧
      (Stage.sign ∈ (publishOne gpgKey e).1 ↔
        (generate_hashes_md5 e.canOpenManifest e.md5 e.files).1 = true) ∧
      (Stage.publish ∈ (publishOne gpgKey e).1 ↔
        ((generate_hashes_md5 e.canOpenManifest e.md5 e.files).1 = true ∧
         (sign_hashes e.path gpgKey true e.run).ok = true)) := by
  refine ⟨?_, publishAll_eq_map gpgKey envs, ?_⟩
  · intro pre post e
    simp [publishAll_eq_map]
  · intro e
    cases hg : (generate_hashes_md5 e.canOpenManifest e.md5 e.files).1 with
    | false => simp [publishOne, hg]
    | true =>
      cases hs : (sign_hashes e.path gpgKey true e.run).ok with
      | false => simp [publishOne, hg, hs]
      | true =>
        cases hgi : (git_add_commit_push e.path e.run).ok with
        | false => simp [publishOne, hg, hs, hgi]
        | true => simp [publishOne, hg, hs, hgi]

/-- The Verify-All loop is the pointwise image of its body. -/
theorem verifyAll_eq_map (gpgKey : String) (envs : List VerifyEnv) :
    verifyAll gpgKey envs = envs.map (fun e => (e.path, verifyOne gpgKey e)) := by
  induction envs with
  | nil => rfl
  | cons e rest ih => simp [verifyAll, ih]

/-- C6: in Verify-All every repository's signature result and integrity
result are each exactly what the corresponding checker computes — the
integrity check runs and its result stands regardless of the signature
result — the combined `Resultado: firma=…, md5=…` status line for those
two results is appended to that repository's log segment, and the whole
run is the independent concatenation of per-repository passes, unaffected
by neighbours or invocation order. -/
theorem verify_all_independent_and_logged (gpgKey : String) (envs : List VerifyEnv) :
    (∀ (pre post : List VerifyEnv) (e : VerifyEnv),
      verifyAll gpgKey (pre ++ e :: post) =
        verifyAll gpgKey pre ++ (e.path, verifyOne gpgKey e) ::
          verifyAll gpgKey post) ∧
    verifyAll gpgKey envs = envs.map (fun e => (e.path, verifyOne gpgKey e)) ∧
    ∀ e : VerifyEnv,
      (verifyOne gpgKey e).sigOk =
        (verify_signature e.path gpgKey e.ascExists e.hashesExists e.run).ok ∧
      (verifyOne gpgKey e).mdOk =
        (verify_md5sum e.path e.hashesExists e.run).ok ∧
      resultLine (verifyOne gpgKey e).sigOk (verifyOne gpgKey e).mdOk ∈
        (verifyOne gpgKey e).log := by
  refine ⟨?_, verifyAll_eq_map gpgKey envs, ?_⟩
  · intro pre post e
    simp [verifyAll_eq_map]
  · intro e
    refine ⟨rfl, rfl, ?_⟩
    simp [verifyOne]

/-! ## Claim theorems: RepositoryScanner -/

/-- C8 counterexample: when the root listing fails (the iterator throws),
detection yields the empty repository list AND an empty diagnostic list —
the cause is not reported anywhere, refuting the claim's "reports the
cause" part; the `catch` body is literally `// ignore`. -/
theorem discovery_failure_reports_nothing :
    (detectRepos none).1 = [] ∧ (detectRepos none).2 = [] :=
  ⟨rfl, rfl⟩

/-- C8 (amended): detection returns exactly the immediate entries of the
root that are directories containing the `.git` marker; a failed listing
yields an empty repository set with no diagnostic message (the error is
silently swallowed), and a successful listing also reports nothing. -/
theorem discovery_filter_and_silent_failure :
    (∀ (entries : List DirEntry) (x : String),
      (x ∈ (detectRepos (some entries)).1 ↔
        ∃ d ∈ entries, d.isDir = true ∧ d.hasGitMarker = true ∧ d.name = x) ∧
      (detectRepos (some entries)).2 = []) ∧
    detectRepos none = ([], []) := by
  refine ⟨?_, rfl⟩
  intro entries x
  refine ⟨?_, rfl⟩
  simp only [detectRepos, List.mem_map, List.mem_filter, Bool.and_eq_true]
  constructor
  · rintro ⟨d, ⟨hd, h1, h2⟩, h3⟩
    exact ⟨d, hd, h1, h2, h3⟩
  · rintro ⟨d, hd, h1, h2, h3⟩
    exact ⟨d, ⟨hd, h1, h2⟩, h3⟩

end HashNSign
